import Mathlib

/-!
Verification development for the step-render interactive viewer
(`src/web/my-app/src/components/model-viewer.tsx` and
`src/web/my-app/src/app/lib/schemas/step.ts`).

The embedding models the data types of `schemas/step.ts`, the metadata
index and `ComponentInfo` derivation of `loadModel`, the highlight
state machine (`applyHighlight` / `clearHighlight` / `revertHighlight`),
pointer hit-testing (`handlePointerMove` / `handlePointerLeave`), the
scene normalization arithmetic under JavaScript number semantics, the
load/error path of `loadModel`, and the session lifecycle (mount,
cleanup, the self-rescheduling animation loop).
-/

namespace StepRender

/-! ## Data model (schemas/step.ts) -/

/-- One externally supplied structural metadata record
(`gltfNodeMetadataSchema`): every field is optional. -/
structure GltfNodeMetadata where
  id : Option Int
  name : Option String
  mesh : Option Int
  children : Option (List Int)
deriving DecidableEq, Repr

/-- The metadata payload (`gltfMetadataSchema`); `nodes` is optional. -/
structure GltfMetadata where
  nodes : Option (List GltfNodeMetadata)
  meshesCount : Option Int
  materialsCount : Option Int
deriving DecidableEq, Repr

/-- The published hover record (`componentHoverInfoSchema`). -/
structure ComponentHoverInfo where
  uuid : Nat
  name : String
  nodeId : Option Int
  meshIndex : Option Int
  childCount : Nat
deriving DecidableEq, Repr

/-- The intrinsic data of one mesh in the loaded scene graph:
its `uuid`, its `name` (three.js names are plain strings, empty when
unset) and its actual child-node count. -/
structure MeshNode where
  uuid : Nat
  name : String
  childCount : Nat
deriving DecidableEq, Repr

/-! ## JavaScript string truthiness

`a || b` on strings yields `a` unless `a` is the empty string. An
optional chain such as `nodeMeta?.name` yields `undefined` (falsy)
when the receiver or the field is absent. -/

/-- `a || b` for two strings. -/
def jsOrString (a b : String) : String := if a = "" then b else a

/-- `a || b` where `a` is `string | undefined`. -/
def jsOrOpt (a : Option String) (b : String) : String :=
  match a with
  | some s => if s = "" then b else s
  | none => b

/-! ## Metadata index (model-viewer.tsx, `metadataByName`, lines 429-436)

```
const metadataByName = new Map<string, GltfNodeMetadata>();
metadata?.nodes?.forEach((node) => {
  if (node.name) {
    metadataByName.set(node.name, node);
  } else if (typeof node.id === "number") {
    metadataByName.set(`node_\x7bnode.id\x7d`, node);
  }
});
```
A `Map` is modelled as a function `String → Option GltfNodeMetadata`;
`set` overwrites, so a later node with the same key wins, which
`Function.update` applied by `foldl` reproduces. -/

/-- The key under which one metadata node is inserted, if any:
its `name` when truthy (present and non-empty), else the synthesized
key `"node_" ++ id` when `id` is a number, else nothing. -/
def insertedKey (node : GltfNodeMetadata) : Option String :=
  match node.name with
  | some s => if s = "" then node.id.map (fun i => "node_" ++ toString i) else some s
  | none => node.id.map (fun i => "node_" ++ toString i)

/-- One `metadataByName.set` step. -/
def indexInsert (acc : String → Option GltfNodeMetadata) (node : GltfNodeMetadata) :
    String → Option GltfNodeMetadata :=
  match insertedKey node with
  | some k => Function.update acc k (some node)
  | none => acc

/-- The `metadataByName` map built from a node list. -/
def metadataByName (nodes : List GltfNodeMetadata) : String → Option GltfNodeMetadata :=
  nodes.foldl indexInsert (fun _ => none)

/-- The node list actually iterated: `metadata?.nodes?.forEach` does
nothing when the payload or its `nodes` field is absent. -/
def metadataNodes (metadata : Option GltfMetadata) : List GltfNodeMetadata :=
  (metadata.bind GltfMetadata.nodes).getD []

/-! ## ComponentInfo derivation (model-viewer.tsx, scene traverse, lines 455-467)

```
const nodeMeta = metadataByName.get(child.name || "") || null;
const componentInfo: ComponentHoverInfo = {
  uuid: child.uuid,
  name: child.name || nodeMeta?.name || "Unnamed component",
  nodeId: nodeMeta?.id ?? null,
  meshIndex: nodeMeta?.mesh ?? null,
  childCount: nodeMeta?.children?.length ?? child.children.length,
};
```
-/

/-- The `ComponentHoverInfo` attached to one mesh during the traverse. -/
def componentInfoFor (index : String → Option GltfNodeMetadata) (child : MeshNode) :
    ComponentHoverInfo :=
  let nodeMeta := index (jsOrString child.name "")
  { uuid := child.uuid
    name := jsOrString child.name (jsOrOpt (nodeMeta.bind GltfNodeMetadata.name) "Unnamed component")
    nodeId := nodeMeta.bind GltfNodeMetadata.id
    meshIndex := nodeMeta.bind GltfNodeMetadata.mesh
    childCount :=
      match nodeMeta.bind GltfNodeMetadata.children with
      | some l => l.length
      | none => child.childCount }

/-- The full per-mesh pipeline: build the index from the payload, then
derive the mesh's `ComponentHoverInfo`. -/
def derivedInfo (metadata : Option GltfMetadata) (child : MeshNode) : ComponentHoverInfo :=
  componentInfoFor (metadataByName (metadataNodes metadata)) child

/-! ## Lemmas about the metadata index -/

lemma node_key_length (i : Int) : ("node_" ++ toString i).length = 5 + (toString i).length := by
  rw [String.length_append]
  congr 1

lemma node_key_ne_empty (i : Int) : ("node_" ++ toString i) ≠ "" := by
  intro h
  have hl := congrArg String.length h
  rw [node_key_length, show ("" : String).length = 0 from rfl] at hl
  omega

lemma insertedKey_ne_empty {n : GltfNodeMetadata} {k : String}
    (h : insertedKey n = some k) : k ≠ "" := by
  rcases n with ⟨id, name, mesh, children⟩
  cases name with
  | some s =>
    by_cases hs : s = ""
    · simp only [insertedKey, hs, if_pos rfl] at h
      cases id with
      | some i =>
        simp only [Option.map_some'] at h
        injection h with h2
        rw [← h2]
        exact node_key_ne_empty i
      | none => simp at h
    · simp only [insertedKey, if_neg hs] at h
      injection h with h2
      rw [← h2]
      exact hs
  | none =>
    cases id with
    | some i =>
      simp only [insertedKey, Option.map_some'] at h
      injection h with h2
      rw [← h2]
      exact node_key_ne_empty i
    | none => simp [insertedKey] at h

lemma indexInsert_some {acc : String → Option GltfNodeMetadata} {n : GltfNodeMetadata}
    {k : String} (h : insertedKey n = some k) :
    indexInsert acc n = Function.update acc k (some n) := by
  unfold indexInsert
  rw [h]

lemma indexInsert_none {acc : String → Option GltfNodeMetadata} {n : GltfNodeMetadata}
    (h : insertedKey n = none) : indexInsert acc n = acc := by
  unfold indexInsert
  rw [h]

lemma metadataByName_isSome_of_foldl {k : String} :
    ∀ (ns : List GltfNodeMetadata) (acc : String → Option GltfNodeMetadata),
      (List.foldl indexInsert acc ns k).isSome = true →
      (acc k).isSome = true ∨ ∃ n ∈ ns, insertedKey n = some k := by
  intro ns
  induction ns with
  | nil => intro acc h; exact Or.inl h
  | cons n ns ih =>
    intro acc h
    rcases ih (indexInsert acc n) h with h1 | h2
    · cases hk : insertedKey n with
      | some k' =>
        rw [indexInsert_some hk] at h1
        by_cases hkk : k = k'
        · exact Or.inr ⟨n, List.mem_cons_self n ns, hkk ▸ hk⟩
        · rw [Function.update_noteq hkk] at h1
          exact Or.inl h1
      | none =>
        rw [indexInsert_none hk] at h1
        exact Or.inl h1
    · rcases h2 with ⟨m, hm, hkey⟩
      exact Or.inr ⟨m, List.mem_cons_of_mem n hm, hkey⟩

lemma metadataByName_mem {ns : List GltfNodeMetadata} {k : String}
    (h : (metadataByName ns k).isSome = true) :
    ∃ n ∈ ns, insertedKey n = some k := by
  rcases metadataByName_isSome_of_foldl ns (fun _ => none) h with h1 | h2
  · simp at h1
  · exact h2

lemma metadataByName_empty_key (ns : List GltfNodeMetadata) :
    metadataByName ns "" = none := by
  cases hv : metadataByName ns "" with
  | none => rfl
  | some n =>
    have : (metadataByName ns "").isSome = true := by rw [hv]; rfl
    rcases metadataByName_mem this with ⟨m, _, hkey⟩
    exact absurd rfl (insertedKey_ne_empty hkey)

lemma jsOrString_empty_right (s : String) : jsOrString s "" = s := by
  unfold jsOrString
  by_cases h : s = "" <;> simp [h]

lemma insertedKey_shape {n : GltfNodeMetadata} {k : String}
    (h : insertedKey n = some k) :
    n.name = some k ∨ ∃ i : Int, n.id = some i ∧ k = "node_" ++ toString i := by
  rcases n with ⟨id, name, mesh, children⟩
  cases name with
  | some s =>
    by_cases hs : s = ""
    · simp only [insertedKey, hs, if_pos rfl] at h
      cases id with
      | some i =>
        simp only [Option.map_some'] at h
        injection h with h2
        exact Or.inr ⟨i, rfl, h2.symm⟩
      | none => simp at h
    · simp only [insertedKey, if_neg hs] at h
      injection h with h2
      exact Or.inl (by rw [h2])
  | none =>
    cases id with
    | some i =>
      simp only [insertedKey, Option.map_some'] at h
      injection h with h2
      exact Or.inr ⟨i, rfl, h2.symm⟩
    | none => simp [insertedKey] at h

/-! ## Theorems: metadata correlation (claims C7 and C10) -/

/-- C10: the metadata lookup is keyed only by the mesh's own name; every
index key is a non-empty node name or the synthesized `"node_" ++ id`
key, so a mesh with an empty name never matches any entry, and the
derived `ComponentInfo` displayName equals the mesh's own name when it
is non-empty and the literal `"Unnamed component"` otherwise — a matched
metadata record's name never supplies the displayName. -/
theorem metadata_key_shape_and_displayName :
    (∀ (ns : List GltfNodeMetadata) (k : String),
        (metadataByName ns k).isSome = true →
        k ≠ "" ∧ ∃ n ∈ ns,
          n.name = some k ∨ ∃ i : Int, n.id = some i ∧ k = "node_" ++ toString i)
    ∧ (∀ (ns : List GltfNodeMetadata), metadataByName ns "" = none)
    ∧ (∀ (metadata : Option GltfMetadata) (child : MeshNode),
        (derivedInfo metadata child).name =
          if child.name = "" then "Unnamed component" else child.name) := by
  refine ⟨?_, metadataByName_empty_key, ?_⟩
  · intro ns k h
    rcases metadataByName_mem h with ⟨n, hm, hkey⟩
    exact ⟨insertedKey_ne_empty hkey, n, hm, insertedKey_shape hkey⟩
  · intro metadata child
    simp only [derivedInfo, componentInfoFor, jsOrString_empty_right]
    by_cases hc : child.name = ""
    · rw [hc, metadataByName_empty_key]
      simp [jsOrString, jsOrOpt]
    · simp [jsOrString, hc]

/-- Witness for `metadata_key_shape_and_displayName`: a concrete lookup
that succeeds, with the key shape it implies. -/
theorem metadata_key_shape_witness :
    (metadataByName [⟨some 1, some "Arm", some 0, some []⟩] "Arm").isSome = true ∧
    ("Arm" ≠ "" ∧ ∃ n ∈ [(⟨some 1, some "Arm", some 0, some []⟩ : GltfNodeMetadata)],
      n.name = some "Arm" ∨ ∃ i : Int, n.id = some i ∧ "Arm" = "node_" ++ toString i) := by
  refine ⟨by decide, metadata_key_shape_and_displayName.1 _ _ (by decide)⟩

/-- C7 counterexample: the claim says childCount equals the matched
record's child-id count whenever a metadata match exists; but for the
record `{id: 1, name: "Arm", mesh: 0}` with its `children` list absent,
the matched mesh `"Arm"` with 2 actual children gets childCount 2 (the
mesh's own child count), not the record's child-id count 0. -/
theorem childCount_ignores_match_without_children :
    metadataByName [⟨some 1, some "Arm", some 0, none⟩] "Arm"
        = some ⟨some 1, some "Arm", some 0, none⟩
    ∧ (derivedInfo (some ⟨some [⟨some 1, some "Arm", some 0, none⟩], none, none⟩)
        ⟨7, "Arm", 2⟩).childCount = 2
    ∧ ((⟨some 1, some "Arm", some 0, none⟩ : GltfNodeMetadata).children.getD []).length = 0
    ∧ (2 : Nat) ≠ 0 := by
  refine ⟨by decide, by decide, rfl, by decide⟩

/-- C7 (amended): displayName is resolved mesh name → matched record's
name → `"Unnamed component"`; childCount is the matched record's
child-id count when a match exists and the record carries a child-id
list, else the mesh's actual child count; and the end-to-end scenario
(`{id: 1, name: "Arm", mesh: 0, children: []}`, mesh `"Arm"`) yields
`ComponentInfo` `{nodeId: 1, meshIndex: 0, childCount: 0, displayName: "Arm"}`. -/
theorem componentInfo_resolution :
    (∀ (index : String → Option GltfNodeMetadata) (child : MeshNode),
        child.name ≠ "" → (componentInfoFor index child).name = child.name)
    ∧ (∀ (index : String → Option GltfNodeMetadata) (child : MeshNode)
          (n : GltfNodeMetadata) (s : String),
        child.name = "" → index "" = some n → n.name = some s → s ≠ "" →
        (componentInfoFor index child).name = s)
    ∧ (∀ (index : String → Option GltfNodeMetadata) (child : MeshNode),
        child.name = "" → (index "").bind GltfNodeMetadata.name = none →
        (componentInfoFor index child).name = "Unnamed component")
    ∧ (∀ (index : String → Option GltfNodeMetadata) (child : MeshNode)
          (n : GltfNodeMetadata) (l : List Int),
        index child.name = some n → n.children = some l →
        (componentInfoFor index child).childCount = l.length)
    ∧ (∀ (index : String → Option GltfNodeMetadata) (child : MeshNode),
        (index child.name).bind GltfNodeMetadata.children = none →
        (componentInfoFor index child).childCount = child.childCount)
    ∧ (∀ u : Nat,
        derivedInfo (some ⟨some [⟨some 1, some "Arm", some 0, some []⟩], none, none⟩)
          ⟨u, "Arm", 0⟩ = ⟨u, "Arm", some 1, some 0, 0⟩) := by
  refine ⟨?_, ?_, ?_, ?_, ?_, ?_⟩
  · intro index child hc
    simp [componentInfoFor, jsOrString_empty_right, jsOrString, hc]
  · intro index child n s hc hidx hname hs
    simp [componentInfoFor, jsOrString_empty_right, jsOrString, jsOrOpt, hc, hidx, hname, hs]
  · intro index child hc hname
    simp [componentInfoFor, jsOrString_empty_right, jsOrString, jsOrOpt, hc, hname]
  · intro index child n l hidx hchildren
    simp [componentInfoFor, jsOrString_empty_right, hidx, hchildren]
  · intro index child hchildren
    simp [componentInfoFor, jsOrString_empty_right, hchildren]
  · intro u
    simp [derivedInfo, componentInfoFor, metadataByName, metadataNodes, indexInsert,
      insertedKey, jsOrString, jsOrOpt, Function.update]

/-- Witness for `componentInfo_resolution`: the first tier applied to a
concretely named mesh with no metadata. -/
theorem componentInfo_resolution_witness :
    ("Arm" : String) ≠ "" ∧
    (componentInfoFor (fun _ => none) ⟨0, "Arm", 3⟩).name = "Arm" := by
  exact ⟨by decide, componentInfo_resolution.1 (fun _ => none) ⟨0, "Arm", 3⟩ (by decide)⟩

/-! ## Highlight state machine (model-viewer.tsx lines 284-347, 366-389)

Materials are opaque; each is modelled by a numeric id. A three.js
`mesh.material` slot holds one material or an array of materials.
`highlightMaterialTemplate.clone()` allocates a fresh instance, modelled
by a fresh-id counter. `dispose()` is modelled by recording the disposed
ids. Meshes are identified by numeric ids; per-mesh mutable state
(`mesh.material`, `mesh.userData.originalMaterial`) is a function from
mesh id. -/

abbrev MatId := Nat

/-- A `mesh.material` slot: a single material or a material array. -/
inductive JsMaterial where
  | single (m : MatId)
  | array (ms : List MatId)
deriving DecidableEq, Repr

/-- The material ids held by one slot (those `disposeMaterial` walks). -/
def matIds : JsMaterial → List MatId
  | .single m => [m]
  | .array ms => ms

/-- `template.clone()` per slot entry:
`mesh.material.map(() => highlightMaterialTemplate.clone())` for an
array, one `highlightMaterialTemplate.clone()` otherwise. Returns the
substituted slot and the next fresh id. -/
def cloneHighlight : JsMaterial → MatId → JsMaterial × MatId
  | .single _, next => (.single next, next + 1)
  | .array ms, next => (.array ((List.range ms.length).map (fun j => next + j)), next + ms.length)

/-- Static data of one mesh in the scene: its intrinsic node data and
the `userData.metadata` attached during the load traverse (absent when
the mesh never went through the traverse). -/
structure MeshEntry where
  node : MeshNode
  metadata : Option ComponentHoverInfo
deriving DecidableEq, Repr

/-- `defaultComponentInfo` (model-viewer.tsx lines 306-312):
`mesh.name || "Unnamed component"` with no metadata correlation. -/
def defaultComponentInfo (mesh : MeshEntry) : ComponentHoverInfo :=
  { uuid := mesh.node.uuid
    name := jsOrString mesh.node.name "Unnamed component"
    nodeId := none
    meshIndex := none
    childCount := mesh.node.childCount }

/-- `mesh.userData.metadata || defaultComponentInfo(mesh)` — an object
is always truthy, so the attached metadata wins when present. -/
def metadataPayload (mesh : MeshEntry) : ComponentHoverInfo :=
  match mesh.metadata with
  | some info => info
  | none => defaultComponentInfo mesh

/-- The session state touched by the picking engine: per-mesh material
slots, per-mesh `userData.originalMaterial`, `highlightedMeshRef`, the
published `hoveredComponent` signal, the clone allocator and the ids
disposed so far. -/
structure PickState where
  material : Nat → JsMaterial
  saved : Nat → Option JsMaterial
  highlightedMesh : Option Nat
  hovered : Option ComponentHoverInfo
  nextMat : MatId
  disposedMats : List MatId

/-- `disposeMaterial` (lines 291-297): dispose every id in the slot. -/
def disposeMaterial (m : JsMaterial) (s : PickState) : PickState :=
  { s with disposedMats := s.disposedMats ++ matIds m }

/-- `revertHighlight` (lines 299-304): no-op without a saved original;
otherwise dispose the current slot, reassign the saved original and
clear the saved slot. -/
def revertHighlight (i : Nat) (s : PickState) : PickState :=
  match s.saved i with
  | none => s
  | some orig =>
    let s1 := disposeMaterial (s.material i) s
    { s1 with
      material := Function.update s1.material i orig
      saved := Function.update s1.saved i none }

/-- `applyHighlight` (lines 314-337). -/
def applyHighlight (meshes : Nat → MeshEntry) (i : Nat) (s : PickState) : PickState :=
  if s.highlightedMesh = some i then
    { s with hovered := some (metadataPayload (meshes i)) }
  else
    let s1 :=
      match s.highlightedMesh with
      | some j => revertHighlight j s
      | none => s
    let s2 := { s1 with saved := Function.update s1.saved i (some (s1.material i)) }
    let c := cloneHighlight (s2.material i) s2.nextMat
    { s2 with
      material := Function.update s2.material i c.1
      nextMat := c.2
      highlightedMesh := some i
      hovered := some (metadataPayload (meshes i)) }

/-- `clearHighlight` (lines 339-347). -/
def clearHighlight (s : PickState) : PickState :=
  match s.highlightedMesh with
  | none => { s with hovered := none }
  | some j =>
    let s1 := revertHighlight j s
    { s1 with highlightedMesh := none, hovered := none }

/-! ## Pointer hit-testing (model-viewer.tsx lines 366-389) -/

/-- One entry of the nearest-first raycaster intersection list:
whether its target object is a mesh (`instanceof THREE.Mesh`) and, for
mesh targets, which mesh. -/
structure Intersection where
  isMeshTarget : Bool
  meshId : Nat
deriving DecidableEq, Repr

/-- `handlePointerMove` (lines 366-382): take the first intersection
whose target is a mesh; highlight it, or clear when none. -/
def handlePointerMove (meshes : Nat → MeshEntry) (intersects : List Intersection)
    (s : PickState) : PickState :=
  match intersects.find? (fun it => it.isMeshTarget) with
  | some it => applyHighlight meshes it.meshId s
  | none => clearHighlight s

/-- `handlePointerLeave` (lines 384-386). -/
def handlePointerLeave (s : PickState) : PickState := clearHighlight s

/-- The pointer-level events the picking engine reacts to; `teardown`
is the highlight part of the cleanup closure (line 511). -/
inductive PickEvent where
  | move (intersects : List Intersection)
  | leave
  | teardown

/-- One event step. -/
def pickStep (meshes : Nat → MeshEntry) (s : PickState) : PickEvent → PickState
  | .move intersects => handlePointerMove meshes intersects s
  | .leave => handlePointerLeave s
  | .teardown => clearHighlight s

/-- A whole event sequence. -/
def pickRun (meshes : Nat → MeshEntry) (events : List PickEvent) (s : PickState) : PickState :=
  events.foldl (pickStep meshes) s

/-- The state right after a load: every mesh carries its original
material, nothing saved, nothing highlighted, nothing hovered. -/
def initPickState (orig : Nat → JsMaterial) : PickState :=
  { material := orig
    saved := fun _ => none
    highlightedMesh := none
    hovered := none
    nextMat := 0
    disposedMats := [] }

/-! ## The highlight invariant and its preservation -/

/-- The `HighlightState` invariant: the saved slot is occupied exactly
for the highlighted mesh, it holds that mesh's pre-highlight original
material, and every non-highlighted mesh still carries its original. -/
def HighlightInv (orig : Nat → JsMaterial) (s : PickState) : Prop :=
  (∀ j, (s.saved j).isSome = true ↔ s.highlightedMesh = some j)
  ∧ (∀ j m, s.saved j = some m → m = orig j)
  ∧ (∀ j, s.highlightedMesh ≠ some j → s.material j = orig j)

lemma highlightInv_init (orig : Nat → JsMaterial) :
    HighlightInv orig (initPickState orig) := by
  refine ⟨?_, ?_, ?_⟩ <;> simp [initPickState]

lemma revertHighlight_of_none {i : Nat} {s : PickState} (h : s.saved i = none) :
    revertHighlight i s = s := by
  unfold revertHighlight
  rw [h]

lemma revertHighlight_of_some {i : Nat} {s : PickState} {m : JsMaterial}
    (h : s.saved i = some m) :
    revertHighlight i s =
      { s with
        material := Function.update s.material i m
        saved := Function.update s.saved i none
        disposedMats := s.disposedMats ++ matIds (s.material i) } := by
  unfold revertHighlight
  rw [h]
  rfl

lemma saved_eq_none_of_inv {orig : Nat → JsMaterial} {s : PickState}
    (h : HighlightInv orig s) {k : Nat} (hk : s.highlightedMesh ≠ some k) :
    s.saved k = none := by
  cases hs : s.saved k with
  | none => rfl
  | some m => exact absurd ((h.1 k).mp (by rw [hs]; rfl)) hk

lemma saved_highlighted_of_inv {orig : Nat → JsMaterial} {s : PickState}
    (h : HighlightInv orig s) {j : Nat} (hj : s.highlightedMesh = some j) :
    s.saved j = some (orig j) := by
  cases hs : s.saved j with
  | none =>
    have := (h.1 j).mpr hj
    rw [hs] at this
    simp at this
  | some m => rw [h.2.1 j m hs]

lemma revertHighlight_material_other {j k : Nat} {s : PickState} (hk : k ≠ j) :
    (revertHighlight j s).material k = s.material k := by
  cases hs : s.saved j with
  | none => rw [revertHighlight_of_none hs]
  | some m => rw [revertHighlight_of_some hs]; exact Function.update_noteq hk m s.material

lemma revertHighlight_nextMat (j : Nat) (s : PickState) :
    (revertHighlight j s).nextMat = s.nextMat := by
  cases hs : s.saved j with
  | none => rw [revertHighlight_of_none hs]
  | some m => rw [revertHighlight_of_some hs]

lemma cloneHighlight_snd (m : JsMaterial) (next : MatId) :
    (cloneHighlight m next).2 = next + (matIds m).length := by
  cases m <;> simp [cloneHighlight, matIds]

lemma highlightInv_apply {orig : Nat → JsMaterial} (meshes : Nat → MeshEntry) (i : Nat)
    {s : PickState} (h : HighlightInv orig s) :
    HighlightInv orig (applyHighlight meshes i s) := by
  obtain ⟨h1, h2, h3⟩ := h
  by_cases hcur : s.highlightedMesh = some i
  · unfold applyHighlight
    rw [if_pos hcur]
    exact ⟨h1, h2, h3⟩
  · cases hold : s.highlightedMesh with
    | none =>
      have hmat : ∀ k, s.material k = orig k := fun k => h3 k (by rw [hold]; simp)
      have hsv : ∀ k, s.saved k = none :=
        fun k => saved_eq_none_of_inv ⟨h1, h2, h3⟩ (by rw [hold]; simp)
      unfold applyHighlight
      rw [if_neg hcur, hold]
      dsimp only
      refine ⟨?_, ?_, ?_⟩
      · intro j
        dsimp only
        by_cases hj : j = i
        · subst hj; simp [Function.update_same]
        · rw [Function.update_noteq hj, hsv j]
          simp [Ne.symm hj]
      · intro j m hm
        dsimp only at hm
        by_cases hj : j = i
        · subst hj
          rw [Function.update_same] at hm
          injection hm with hm2
          rw [← hm2, hmat j]
        · rw [Function.update_noteq hj, hsv j] at hm
          exact absurd hm (by simp)
      · intro j hj
        dsimp only at hj ⊢
        have hji : j ≠ i := fun e => hj (by rw [e])
        rw [Function.update_noteq hji]
        exact hmat j
    | some j0 =>
      have hj0i : i ≠ j0 := fun e => hcur (by rw [hold, e])
      have hsj := saved_highlighted_of_inv ⟨h1, h2, h3⟩ hold
      have hmi : s.material i = orig i := h3 i (by rw [hold]; simp [Ne.symm hj0i])
      unfold applyHighlight
      rw [if_neg hcur, hold]
      dsimp only
      rw [revertHighlight_of_some hsj]
      dsimp only
      refine ⟨?_, ?_, ?_⟩
      · intro j
        dsimp only
        by_cases hj : j = i
        · subst hj; simp [Function.update_same]
        · rw [Function.update_noteq hj]
          by_cases hjj : j = j0
          · subst hjj; simp [Function.update_same, Ne.symm hj]
          · rw [Function.update_noteq hjj,
              saved_eq_none_of_inv ⟨h1, h2, h3⟩ (by rw [hold]; simp [Ne.symm hjj])]
            simp [Ne.symm hj]
      · intro j m hm
        dsimp only at hm
        by_cases hj : j = i
        · subst hj
          rw [Function.update_same] at hm
          injection hm with hm2
          rw [← hm2, Function.update_noteq (Ne.symm hj0i).symm, hmi]
        · rw [Function.update_noteq hj] at hm
          by_cases hjj : j = j0
          · subst hjj
            rw [Function.update_same] at hm
            exact absurd hm (by simp)
          · rw [Function.update_noteq hjj,
              saved_eq_none_of_inv ⟨h1, h2, h3⟩ (by rw [hold]; simp [Ne.symm hjj])] at hm
            exact absurd hm (by simp)
      · intro j hj
        dsimp only at hj ⊢
        have hji : j ≠ i := fun e => hj (by rw [e])
        rw [Function.update_noteq hji]
        by_cases hjj : j = j0
        · subst hjj; rw [Function.update_same]
        · rw [Function.update_noteq hjj]
          exact h3 j (by rw [hold]; simp [Ne.symm hjj])

lemma highlightInv_clear {orig : Nat → JsMaterial} {s : PickState}
    (h : HighlightInv orig s) : HighlightInv orig (clearHighlight s) := by
  obtain ⟨h1, h2, h3⟩ := h
  cases hold : s.highlightedMesh with
  | none =>
    unfold clearHighlight
    rw [hold]
    dsimp only
    refine ⟨?_, ?_, ?_⟩
    · intro j
      dsimp only
      rw [← hold]
      exact h1 j
    · intro j m hm
      exact h2 j m hm
    · intro j _
      exact h3 j (by rw [hold]; simp)
  | some j0 =>
    have hsj := saved_highlighted_of_inv ⟨h1, h2, h3⟩ hold
    unfold clearHighlight
    rw [hold]
    dsimp only
    rw [revertHighlight_of_some hsj]
    dsimp only
    refine ⟨?_, ?_, ?_⟩
    · intro j
      dsimp only
      by_cases hj : j = j0
      · subst hj; simp [Function.update_same]
      · rw [Function.update_noteq hj,
          saved_eq_none_of_inv ⟨h1, h2, h3⟩ (by rw [hold]; simp [Ne.symm hj])]
        simp
    · intro j m hm
      dsimp only at hm
      by_cases hj : j = j0
      · subst hj
        rw [Function.update_same] at hm
        exact absurd hm (by simp)
      · rw [Function.update_noteq hj,
          saved_eq_none_of_inv ⟨h1, h2, h3⟩ (by rw [hold]; simp [Ne.symm hj])] at hm
        exact absurd hm (by simp)
    · intro j _
      dsimp only
      by_cases hj : j = j0
      · subst hj; rw [Function.update_same]
      · rw [Function.update_noteq hj]
        exact h3 j (by rw [hold]; simp [Ne.symm hj])

lemma highlightInv_step {orig : Nat → JsMaterial} (meshes : Nat → MeshEntry)
    {s : PickState} (e : PickEvent) (h : HighlightInv orig s) :
    HighlightInv orig (pickStep meshes s e) := by
  cases e with
  | move intersects =>
    show HighlightInv orig (handlePointerMove meshes intersects s)
    unfold handlePointerMove
    cases hf : List.find? (fun it => it.isMeshTarget) intersects with
    | some it => exact highlightInv_apply meshes it.meshId h
    | none => exact highlightInv_clear h
  | leave => exact highlightInv_clear h
  | teardown => exact highlightInv_clear h

lemma highlightInv_run {orig : Nat → JsMaterial} (meshes : Nat → MeshEntry) :
    ∀ (events : List PickEvent) (s : PickState), HighlightInv orig s →
      HighlightInv orig (pickRun meshes events s) := by
  intro events
  induction events with
  | nil => intro s h; exact h
  | cons e es ih => intro s h; exact ih _ (highlightInv_step meshes e h)

/-! ## Theorems: the picking engine (claims C3, C4, C5, C6) -/

/-- C3: after any sequence of pointer-move, pointer-leave and teardown
events, at most one mesh carries a substituted (non-original) material,
a saved original exists exactly for the highlighted mesh, and every
saved original is exactly the material the mesh carried before
highlighting began. -/
theorem highlight_state_invariant :
    ∀ (orig : Nat → JsMaterial) (meshes : Nat → MeshEntry) (events : List PickEvent),
      (∀ j k, (pickRun meshes events (initPickState orig)).material j ≠ orig j →
          (pickRun meshes events (initPickState orig)).material k ≠ orig k → j = k)
      ∧ (∀ j, ((pickRun meshes events (initPickState orig)).saved j).isSome = true ↔
          (pickRun meshes events (initPickState orig)).highlightedMesh = some j)
      ∧ ((∃ j, ((pickRun meshes events (initPickState orig)).saved j).isSome = true) ↔
          ((pickRun meshes events (initPickState orig)).highlightedMesh).isSome = true)
      ∧ (∀ j m, (pickRun meshes events (initPickState orig)).saved j = some m → m = orig j) := by
  intro orig meshes events
  have hinv := highlightInv_run meshes events (initPickState orig) (highlightInv_init orig)
  obtain ⟨h1, h2, h3⟩ := hinv
  refine ⟨?_, h1, ?_, h2⟩
  · intro j k hj hk
    have hj2 : (pickRun meshes events (initPickState orig)).highlightedMesh = some j := by
      by_contra hc
      exact hj (h3 j hc)
    have hk2 : (pickRun meshes events (initPickState orig)).highlightedMesh = some k := by
      by_contra hc
      exact hk (h3 k hc)
    rw [hj2] at hk2
    injection hk2
  · constructor
    · rintro ⟨j, hj⟩
      rw [(h1 j).mp hj]
      rfl
    · intro hs
      cases hh : (pickRun meshes events (initPickState orig)).highlightedMesh with
      | none => rw [hh] at hs; simp at hs
      | some j => exact ⟨j, (h1 j).mpr hh⟩

/-- Witness for `highlight_state_invariant`: one pointer-move hit on
mesh 0 leaves it the only mesh with a substituted material and its
original saved. -/
theorem highlight_state_invariant_witness :
    ((pickRun (fun _ => ⟨⟨0, "m", 0⟩, none⟩) [PickEvent.move [⟨true, 0⟩]]
        (initPickState (fun _ => JsMaterial.single 100))).material 0 ≠ JsMaterial.single 100)
    ∧ (0 : Nat) = 0
    ∧ ((pickRun (fun _ => ⟨⟨0, "m", 0⟩, none⟩) [PickEvent.move [⟨true, 0⟩]]
        (initPickState (fun _ => JsMaterial.single 100))).saved 0
          = some (JsMaterial.single 100))
    ∧ JsMaterial.single 100 = JsMaterial.single 100 := by
  refine ⟨by decide, ?_, by decide, ?_⟩
  · exact (highlight_state_invariant (fun _ => JsMaterial.single 100)
      (fun _ => ⟨⟨0, "m", 0⟩, none⟩) [PickEvent.move [⟨true, 0⟩]]).1 0 0 (by decide) (by decide)
  · exact (highlight_state_invariant (fun _ => JsMaterial.single 100)
      (fun _ => ⟨⟨0, "m", 0⟩, none⟩) [PickEvent.move [⟨true, 0⟩]]).2.2.2 0
      (JsMaterial.single 100) (by decide)

/-- C4: any event sequence that ends with nothing highlighted leaves
every mesh with its pre-highlight original material; `revertHighlight`
is a no-op without a saved original, and otherwise disposes the
currently assigned material(s), reassigns the saved original and clears
the saved slot. -/
theorem highlight_restoration :
    (∀ (orig : Nat → JsMaterial) (meshes : Nat → MeshEntry) (events : List PickEvent),
        (pickRun meshes events (initPickState orig)).highlightedMesh = none →
        ∀ j, (pickRun meshes events (initPickState orig)).material j = orig j)
    ∧ (∀ (i : Nat) (s : PickState), s.saved i = none → revertHighlight i s = s)
    ∧ (∀ (i : Nat) (s : PickState) (m : JsMaterial), s.saved i = some m →
        (revertHighlight i s).material i = m
        ∧ (revertHighlight i s).saved i = none
        ∧ (revertHighlight i s).disposedMats = s.disposedMats ++ matIds (s.material i)) := by
  refine ⟨?_, ?_, ?_⟩
  · intro orig meshes events hidle j
    have hinv := highlightInv_run meshes events (initPickState orig) (highlightInv_init orig)
    exact hinv.2.2 j (by rw [hidle]; simp)
  · intro i s h
    exact revertHighlight_of_none h
  · intro i s m h
    rw [revertHighlight_of_some h]
    exact ⟨Function.update_same i m s.material, Function.update_same i none s.saved, rfl⟩

/-- Witness for `highlight_restoration`: hover mesh 0, then leave — the
final state is idle and mesh 0 got its original back. -/
theorem highlight_restoration_witness :
    ((pickRun (fun _ => ⟨⟨0, "m", 0⟩, none⟩) [PickEvent.move [⟨true, 0⟩], PickEvent.leave]
        (initPickState (fun _ => JsMaterial.single 100))).highlightedMesh = none)
    ∧ ((pickRun (fun _ => ⟨⟨0, "m", 0⟩, none⟩) [PickEvent.move [⟨true, 0⟩], PickEvent.leave]
        (initPickState (fun _ => JsMaterial.single 100))).material 0 = JsMaterial.single 100) := by
  refine ⟨by decide, ?_⟩
  exact highlight_restoration.1 (fun _ => JsMaterial.single 100)
    (fun _ => ⟨⟨0, "m", 0⟩, none⟩) [PickEvent.move [⟨true, 0⟩], PickEvent.leave] (by decide) 0

/-- C5: a repeated hit on the already-highlighted mesh only republishes
its `ComponentInfo` — the whole state is unchanged except the hovered
signal, so no material substitution and no new allocation happen; and a
hit entering a highlight allocates exactly one clone per sub-material
of the entered mesh (one for a single-material mesh). -/
theorem applyHighlight_reaffirm :
    (∀ (meshes : Nat → MeshEntry) (i : Nat) (s : PickState),
        s.highlightedMesh = some i →
        applyHighlight meshes i s = { s with hovered := some (metadataPayload (meshes i)) })
    ∧ (∀ (meshes : Nat → MeshEntry) (i : Nat) (s : PickState),
        s.highlightedMesh ≠ some i →
        (applyHighlight meshes i s).nextMat = s.nextMat + (matIds (s.material i)).length) := by
  constructor
  · intro meshes i s h
    unfold applyHighlight
    rw [if_pos h]
  · intro meshes i s h
    cases hold : s.highlightedMesh with
    | none =>
      unfold applyHighlight
      rw [if_neg h, hold]
      dsimp only
      exact cloneHighlight_snd (s.material i) s.nextMat
    | some j =>
      have hij : i ≠ j := fun e => h (by rw [hold, e])
      unfold applyHighlight
      rw [if_neg h, hold]
      dsimp only
      rw [revertHighlight_material_other hij, revertHighlight_nextMat]
      exact cloneHighlight_snd (s.material i) s.nextMat

/-- Witness for `applyHighlight_reaffirm`: re-hitting the highlighted
mesh 0 only changes the hovered signal. -/
theorem applyHighlight_reaffirm_witness :
    ((pickRun (fun _ => ⟨⟨0, "m", 0⟩, none⟩) [PickEvent.move [⟨true, 0⟩]]
        (initPickState (fun _ => JsMaterial.single 100))).highlightedMesh = some 0)
    ∧ (applyHighlight (fun _ => ⟨⟨0, "m", 0⟩, none⟩) 0
        (pickRun (fun _ => ⟨⟨0, "m", 0⟩, none⟩) [PickEvent.move [⟨true, 0⟩]]
          (initPickState (fun _ => JsMaterial.single 100)))
        = { pickRun (fun _ => ⟨⟨0, "m", 0⟩, none⟩) [PickEvent.move [⟨true, 0⟩]]
              (initPickState (fun _ => JsMaterial.single 100)) with
            hovered := some (metadataPayload ((fun _ => (⟨⟨0, "m", 0⟩, none⟩ : MeshEntry)) 0)) }) := by
  refine ⟨by decide, ?_⟩
  exact applyHighlight_reaffirm.1 (fun _ => ⟨⟨0, "m", 0⟩, none⟩) 0
    (pickRun (fun _ => ⟨⟨0, "m", 0⟩, none⟩) [PickEvent.move [⟨true, 0⟩]]
      (initPickState (fun _ => JsMaterial.single 100))) (by decide)

lemma find?_mesh_first :
    ∀ (l : List Intersection) (it : Intersection),
      l.find? (fun x => x.isMeshTarget) = some it →
      it.isMeshTarget = true ∧
      ∃ pre post, l = pre ++ it :: post ∧ ∀ x ∈ pre, x.isMeshTarget = false := by
  intro l
  induction l with
  | nil => intro it h; simp at h
  | cons a l ih =>
    intro it h
    by_cases ha : a.isMeshTarget
    · rw [List.find?_cons_of_pos _ ha] at h
      injection h with h2
      subst h2
      exact ⟨ha, [], l, rfl, by simp⟩
    · rw [List.find?_cons_of_neg _ ha] at h
      obtain ⟨hp, pre, post, hl, hpre⟩ := ih it h
      refine ⟨hp, a :: pre, post, by rw [hl]; rfl, ?_⟩
      intro x hx
      rcases List.mem_cons.mp hx with hxa | hxm
      · rw [hxa]
        exact Bool.not_eq_true _ ▸ eq_false_of_ne_true (by simpa using ha)
      · exact hpre x hxm

lemma applyHighlight_hovered (meshes : Nat → MeshEntry) (i : Nat) (s : PickState) :
    (applyHighlight meshes i s).hovered = some (metadataPayload (meshes i)) := by
  unfold applyHighlight
  by_cases h : s.highlightedMesh = some i
  · rw [if_pos h]
  · rw [if_neg h]

lemma clearHighlight_hovered (s : PickState) :
    (clearHighlight s).hovered = none := by
  unfold clearHighlight
  cases s.highlightedMesh <;> rfl

/-- C6: per pointer-move, the selected intersection is the first one in
the nearest-first list whose target is a mesh (every earlier entry is a
non-mesh hit); on a mesh hit the mesh's attached `ComponentInfo` is
published as the hovered-component signal, and on no mesh hit or on
pointer-leave `none` is published. -/
theorem pointer_hit_selection :
    (∀ (intersects : List Intersection) (it : Intersection),
        intersects.find? (fun x => x.isMeshTarget) = some it →
        it.isMeshTarget = true ∧
        ∃ pre post, intersects = pre ++ it :: post ∧ ∀ x ∈ pre, x.isMeshTarget = false)
    ∧ (∀ (meshes : Nat → MeshEntry) (intersects : List Intersection) (s : PickState)
          (it : Intersection),
        intersects.find? (fun x => x.isMeshTarget) = some it →
        (handlePointerMove meshes intersects s).hovered
          = some (metadataPayload (meshes it.meshId)))
    ∧ (∀ (meshes : Nat → MeshEntry) (intersects : List Intersection) (s : PickState),
        intersects.find? (fun x => x.isMeshTarget) = none →
        (handlePointerMove meshes intersects s).hovered = none)
    ∧ (∀ s : PickState, (handlePointerLeave s).hovered = none) := by
  refine ⟨find?_mesh_first, ?_, ?_, ?_⟩
  · intro meshes intersects s it h
    unfold handlePointerMove
    rw [h]
    exact applyHighlight_hovered meshes it.meshId s
  · intro meshes intersects s h
    unfold handlePointerMove
    rw [h]
    exact clearHighlight_hovered s
  · intro s
    exact clearHighlight_hovered s

/-- Witness for `pointer_hit_selection`: a grid-helper hit in front of a
mesh hit is skipped and the mesh's info is published. -/
theorem pointer_hit_selection_witness :
    (List.find? (fun x => x.isMeshTarget)
        ([⟨false, 9⟩, ⟨true, 3⟩] : List Intersection) = some ⟨true, 3⟩)
    ∧ (Intersection.isMeshTarget ⟨true, 3⟩ = true ∧
        ∃ pre post, [(⟨false, 9⟩ : Intersection), ⟨true, 3⟩] = pre ++ (⟨true, 3⟩ : Intersection) :: post
          ∧ ∀ x ∈ pre, x.isMeshTarget = false)
    ∧ ((handlePointerMove (fun _ => ⟨⟨0, "m", 0⟩, none⟩) [⟨false, 9⟩, ⟨true, 3⟩]
          (initPickState (fun _ => JsMaterial.single 100))).hovered
        = some (metadataPayload ((fun _ => (⟨⟨0, "m", 0⟩, none⟩ : MeshEntry)) 3))) := by
  refine ⟨by decide, pointer_hit_selection.1 _ _ (by decide), ?_⟩
  exact pointer_hit_selection.2.1 (fun _ => ⟨⟨0, "m", 0⟩, none⟩) [⟨false, 9⟩, ⟨true, 3⟩]
    (initPickState (fun _ => JsMaterial.single 100)) ⟨true, 3⟩ (by decide)

/-! ## JavaScript number semantics for scene normalization
(model-viewer.tsx lines 439-448)

```
const box = new THREE.Box3().setFromObject(gltf.scene);
const center = box.getCenter(new THREE.Vector3());
const size = box.getSize(new THREE.Vector3());
const maxDim = Math.max(size.x, size.y, size.z);
const scale = 5 / maxDim;
gltf.scene.scale.multiplyScalar(scale);
gltf.scene.position.sub(center.multiplyScalar(scale));
```
The arithmetic is IEEE-754: a positive number divided by zero is
`Infinity`, zero times `Infinity` is `NaN`. There is no guard on
`maxDim`. -/

/-- A JavaScript number reachable by the normalization arithmetic. -/
inductive JSNum where
  | fin (q : ℚ)
  | posInf
  | negInf
  | nan
deriving DecidableEq, Repr

/-- JavaScript `/`. -/
def jsDiv : JSNum → JSNum → JSNum
  | .nan, _ => .nan
  | .fin a, .fin b =>
    if b = 0 then
      if a = 0 then .nan else if 0 < a then .posInf else .negInf
    else .fin (a / b)
  | .fin _, .posInf => .fin 0
  | .fin _, .negInf => .fin 0
  | .posInf, .fin b => if 0 ≤ b then .posInf else .negInf
  | .negInf, .fin b => if 0 ≤ b then .negInf else .posInf
  | .posInf, .posInf => .nan
  | .posInf, .negInf => .nan
  | .negInf, .posInf => .nan
  | .negInf, .negInf => .nan
  | _, .nan => .nan

/-- JavaScript `*`. -/
def jsMul : JSNum → JSNum → JSNum
  | .nan, _ => .nan
  | .fin a, .fin b => .fin (a * b)
  | .fin a, .posInf => if a = 0 then .nan else if 0 < a then .posInf else .negInf
  | .fin a, .negInf => if a = 0 then .nan else if 0 < a then .negInf else .posInf
  | .posInf, .fin b => if b = 0 then .nan else if 0 < b then .posInf else .negInf
  | .negInf, .fin b => if b = 0 then .nan else if 0 < b then .negInf else .posInf
  | .posInf, .posInf => .posInf
  | .posInf, .negInf => .negInf
  | .negInf, .posInf => .negInf
  | .negInf, .negInf => .posInf
  | _, .nan => .nan

/-- JavaScript `-`. -/
def jsSub : JSNum → JSNum → JSNum
  | .nan, _ => .nan
  | .fin a, .fin b => .fin (a - b)
  | .fin _, .posInf => .negInf
  | .fin _, .negInf => .posInf
  | .posInf, .fin _ => .posInf
  | .negInf, .fin _ => .negInf
  | .posInf, .posInf => .nan
  | .posInf, .negInf => .posInf
  | .negInf, .posInf => .negInf
  | .negInf, .negInf => .nan
  | _, .nan => .nan

/-- JavaScript `Math.max` of two numbers. -/
def jsMax : JSNum → JSNum → JSNum
  | .nan, _ => .nan
  | .posInf, _ => .posInf
  | .fin a, .fin b => .fin (max a b)
  | .fin a, .negInf => .fin a
  | .fin _, .posInf => .posInf
  | .negInf, b => b
  | _, .nan => .nan

/-- A three.js vector under JavaScript arithmetic. -/
structure Vec3 where
  x : JSNum
  y : JSNum
  z : JSNum
deriving DecidableEq, Repr

/-- `const maxDim = Math.max(size.x, size.y, size.z)`. -/
def maxDim (size : Vec3) : JSNum := jsMax (jsMax size.x size.y) size.z

/-- `const scale = 5 / maxDim` — no guard against `maxDim` being 0. -/
def computeScale (size : Vec3) : JSNum := jsDiv (.fin 5) (maxDim size)

/-- `v.multiplyScalar(s)`. -/
def multiplyScalar (v : Vec3) (s : JSNum) : Vec3 :=
  ⟨jsMul v.x s, jsMul v.y s, jsMul v.z s⟩

/-- `a.sub(b)`. -/
def subVec (a b : Vec3) : Vec3 :=
  ⟨jsSub a.x b.x, jsSub a.y b.y, jsSub a.z b.z⟩

/-- The whole normalization step: the resulting scene scale and scene
position given the starting scale and position, the bounding-box center
and the bounding-box size. -/
def normalizeScene (sceneScale scenePos center size : Vec3) : Vec3 × Vec3 :=
  let scale := computeScale size
  (multiplyScalar sceneScale scale, subVec scenePos (multiplyScalar center scale))

/-- C2 (code evaluated at the failing input): for a zero-extent
bounding box the code computes `scale = 5 / 0 = Infinity` — not the 1
the spec requires — and applying it drives the scene scale to
`Infinity` and the scene position to `NaN`; for a positive `maxDim`
(here 2) the scale is `5 / maxDim` as the claim states. -/
theorem degenerate_scale_eval :
    computeScale ⟨.fin 0, .fin 0, .fin 0⟩ = JSNum.posInf
    ∧ JSNum.posInf ≠ JSNum.fin 1
    ∧ (normalizeScene ⟨.fin 1, .fin 1, .fin 1⟩ ⟨.fin 0, .fin 0, .fin 0⟩
        ⟨.fin 0, .fin 0, .fin 0⟩ ⟨.fin 0, .fin 0, .fin 0⟩).1
        = ⟨JSNum.posInf, JSNum.posInf, JSNum.posInf⟩
    ∧ (normalizeScene ⟨.fin 1, .fin 1, .fin 1⟩ ⟨.fin 0, .fin 0, .fin 0⟩
        ⟨.fin 0, .fin 0, .fin 0⟩ ⟨.fin 0, .fin 0, .fin 0⟩).2
        = ⟨JSNum.nan, JSNum.nan, JSNum.nan⟩
    ∧ computeScale ⟨.fin 2, .fin 2, .fin 2⟩ = JSNum.fin (5 / 2) := by
  refine ⟨?_, by decide, ?_, ?_, ?_⟩ <;>
    norm_num [computeScale, maxDim, jsMax, jsDiv, jsMul, jsSub,
      normalizeScene, multiplyScalar, subVec]

/-! ## Load failure handling (loadModel, lines 392-502) -/

/-- Outcome of the `fetch` of the download location: an HTTP response
with a status code, or a network failure rejecting with a message. -/
inductive FetchOutcome where
  | response (status : Nat) (downloadUrl : String)
  | networkFailure (msg : String)
deriving DecidableEq, Repr

/-- Outcome of `GLTFLoader.load`: a decoded scene delivered to the
success callback, or a decode error delivered to the error callback. -/
inductive GlbOutcome where
  | decoded (content : String)
  | decodeFailure (msg : String)
deriving DecidableEq, Repr

/-- The environment one `loadModel` run sees. -/
structure LoadEnv where
  fetch : FetchOutcome
  glb : GlbOutcome
deriving DecidableEq, Repr

/-- `response.ok`: HTTP status in the inclusive range 200-299. -/
def responseOk (status : Nat) : Bool := decide (200 ≤ status) && decide (status < 300)

/-- The component state `loadModel` touches: the loading indicator, the
error signal, the content of the scene object named `model`, and
whether the component is mounted (`loadModel` never unmounts it). -/
structure ViewState where
  loading : Bool
  error : Option String
  sceneModel : Option String
  mounted : Bool
deriving DecidableEq, Repr

/-- One `loadModel` run: set loading and clear the error; a non-ok
response throws `Failed to fetch download URL: status` into the catch
block, a network failure rejects into the catch block, a decode error
reaches the loader error callback as `Failed to load 3D model: err`;
each failure path sets the single error message and stops loading, the
success path installs the decoded content and stops loading. -/
def loadModel (env : LoadEnv) (s : ViewState) : ViewState :=
  let s1 := { s with loading := true, error := none }
  match env.fetch with
  | .networkFailure msg => { s1 with error := some msg, loading := false }
  | .response status _ =>
    if responseOk status = false then
      { s1 with error := some ("Failed to fetch download URL: " ++ toString status)
                loading := false }
    else
      match env.glb with
      | .decoded content => { s1 with sceneModel := some content, loading := false }
      | .decodeFailure msg =>
        { s1 with error := some ("Failed to load 3D model: " ++ msg), loading := false }

/-- A failing environment: the download-location lookup fails
(transport) or the payload does not decode. -/
def loadFails (env : LoadEnv) : Prop :=
  (match env.fetch with
   | .networkFailure _ => True
   | .response status _ => responseOk status = false)
  ∨ (∃ msg, env.glb = .decodeFailure msg)

/-- C8: every load failure is surfaced as a single error message, stops
the loading indicator, leaves the scene exactly as it was (empty stays
empty) and keeps the session mounted. -/
theorem load_failure_surfaced :
    ∀ (env : LoadEnv) (s : ViewState), loadFails env →
      ((loadModel env s).error).isSome = true
      ∧ (loadModel env s).loading = false
      ∧ (loadModel env s).sceneModel = s.sceneModel
      ∧ (loadModel env s).mounted = s.mounted := by
  intro env s h
  cases hf : env.fetch with
  | networkFailure msg =>
    unfold loadModel
    rw [hf]
    exact ⟨rfl, rfl, rfl, rfl⟩
  | response status url =>
    cases hok : responseOk status with
    | false =>
      unfold loadModel
      rw [hf]
      dsimp only
      rw [if_pos hok]
      exact ⟨rfl, rfl, rfl, rfl⟩
    | true =>
      rcases h with h1 | ⟨msg, h2⟩
      · rw [hf] at h1
        dsimp only at h1
        rw [hok] at h1
        exact absurd h1 (by simp)
      · unfold loadModel
        rw [hf]
        dsimp only
        rw [if_neg (by rw [hok]; simp), h2]
        exact ⟨rfl, rfl, rfl, rfl⟩

/-- Witness for `load_failure_surfaced`: a 500 status surfaces an error
and stops the loading indicator while the session stays mounted. -/
theorem load_failure_surfaced_witness :
    loadFails ⟨.response 500 "u", .decoded "c"⟩
    ∧ ((loadModel ⟨.response 500 "u", .decoded "c"⟩ ⟨true, none, none, true⟩).error).isSome = true
    ∧ (loadModel ⟨.response 500 "u", .decoded "c"⟩ ⟨true, none, none, true⟩).loading = false
    ∧ (loadModel ⟨.response 500 "u", .decoded "c"⟩ ⟨true, none, none, true⟩).sceneModel = none
    ∧ (loadModel ⟨.response 500 "u", .decoded "c"⟩ ⟨true, none, none, true⟩).mounted = true := by
  have hfail : loadFails ⟨.response 500 "u", .decoded "c"⟩ := Or.inl (by decide)
  have h := load_failure_surfaced ⟨.response 500 "u", .decoded "c"⟩ ⟨true, none, none, true⟩ hfail
  exact ⟨hfail, h.1, h.2.1, h.2.2.1, h.2.2.2⟩

/-! ## Session supersession and stale load continuations
(model-viewer.tsx lines 230-518)

Each effect run ("session") creates its own `scene`, `camera` and
`controls`; `loadModel` closes over them. The effect cleanup
(lines 507-517) removes handlers and disposes the renderer but does not
cancel the in-flight load; a continuation that fires later runs
unguarded — there is no liveness-token check anywhere in `loadModel` —
and mutates the scene and camera captured in its closure and the shared
`loading` flag. -/

/-- The state a load continuation reaches through its closure: the
identifier its session was mounted for, the content of the `model`
object in that session's own scene, and whether the continuation reset
that session's camera. -/
structure LoadSession where
  ident : String
  sceneModel : Option String
  cameraWasReset : Bool
deriving DecidableEq, Repr

/-- The component-level world: the sessions created so far (the last is
the live one) plus the shared `loading` and `error` component state. -/
structure MVWorld where
  sessions : List LoadSession
  loading : Bool
  error : Option String
deriving DecidableEq, Repr

/-- The interleaved triggers: a remount for a new identifier (effect
cleanup of the old session plus effect body and `loadModel` start of a
new one), and the success continuation of the load of session `j` firing. -/
inductive SessionEvent where
  | remount (ident : String)
  | resolveOk (j : Nat)

/-- One trigger. A remount appends a fresh session with an empty scene
and runs the synchronous head of `loadModel` (`setLoading(true)`,
`setError(null)`). A firing continuation — with no liveness check —
installs its decoded content in its own session's scene, resets that
session's camera and sets the shared `loading` flag to false. -/
def sessionStep (w : MVWorld) : SessionEvent → MVWorld
  | .remount ident =>
    { w with sessions := w.sessions ++ [⟨ident, none, false⟩], loading := true, error := none }
  | .resolveOk j =>
    match w.sessions.get? j with
    | none => w
    | some sess =>
      { w with
        sessions := w.sessions.set j { sess with sceneModel := some sess.ident, cameraWasReset := true }
        loading := false }

/-- A whole interleaving. -/
def sessionRun (events : List SessionEvent) (w : MVWorld) : MVWorld :=
  events.foldl sessionStep w

/-- The world before the first mount. -/
def initWorld : MVWorld := { sessions := [], loading := true, error := none }

/-- The scene content of the live (most recently created) session. -/
def currentSceneModel (w : MVWorld) : Option (Option String) :=
  (w.sessions.getLast?).map LoadSession.sceneModel

/-- C1 counterexample: mount for "A", remount for "B" before "A"
resolves, then let the stale continuation fire. The claim says a
continuation firing after its session is superseded discards its result
without mutating any scene or camera state; in fact it installs "A"
into its session's scene, resets that camera, and flips the shared
loading flag — the world is not left unchanged. -/
theorem stale_continuation_mutates_state :
    ((sessionRun [SessionEvent.remount "A", SessionEvent.remount "B"] initWorld).sessions.get? 0
      = some ⟨"A", none, false⟩)
    ∧ ((sessionRun [SessionEvent.remount "A", SessionEvent.remount "B"] initWorld).loading = true)
    ∧ ((sessionRun [SessionEvent.remount "A", SessionEvent.remount "B",
          SessionEvent.resolveOk 0] initWorld).sessions.get? 0
      = some ⟨"A", some "A", true⟩)
    ∧ ((sessionRun [SessionEvent.remount "A", SessionEvent.remount "B",
          SessionEvent.resolveOk 0] initWorld).loading = false)
    ∧ (sessionRun [SessionEvent.remount "A", SessionEvent.remount "B",
          SessionEvent.resolveOk 0] initWorld
        ≠ sessionRun [SessionEvent.remount "A", SessionEvent.remount "B"] initWorld) := by
  refine ⟨by decide, by decide, by decide, by decide, by decide⟩

/-- C1 (amended): there is no liveness token — a stale continuation
does mutate its own superseded session's scene and camera and the
shared loading flag — but a continuation only ever reaches the session
it closed over, so after a remount from "A" to "B" the live session's
final scene holds exactly the content of "B" for either completion order. -/
theorem stale_load_scene_isolation :
    (∀ (a b : String) (ord : Bool),
        currentSceneModel (sessionRun
          (if ord then [SessionEvent.resolveOk 0, SessionEvent.resolveOk 1]
            else [SessionEvent.resolveOk 1, SessionEvent.resolveOk 0])
          (sessionRun [SessionEvent.remount a, SessionEvent.remount b] initWorld))
          = some (some b))
    ∧ (∀ (w : MVWorld) (j k : Nat), j ≠ k →
        (sessionStep w (SessionEvent.resolveOk j)).sessions.get? k = w.sessions.get? k) := by
  constructor
  · intro a b ord
    cases ord <;> rfl
  · intro w j k hjk
    unfold sessionStep
    dsimp only
    cases hg : w.sessions.get? j with
    | none => rfl
    | some sess =>
      dsimp only
      exact List.get?_set_ne _ _ hjk

/-- Witness for `stale_load_scene_isolation`: the stale continuation of
session 0 leaves the scene of session 1 untouched. -/
theorem stale_load_scene_isolation_witness :
    (0 : Nat) ≠ 1
    ∧ (sessionStep (sessionRun [SessionEvent.remount "A", SessionEvent.remount "B"] initWorld)
        (SessionEvent.resolveOk 0)).sessions.get? 1
      = (sessionRun [SessionEvent.remount "A", SessionEvent.remount "B"] initWorld).sessions.get? 1 := by
  exact ⟨by decide, stale_load_scene_isolation.2
    (sessionRun [SessionEvent.remount "A", SessionEvent.remount "B"] initWorld) 0 1 (by decide)⟩

/-! ## Session lifecycle and the animation loop
(model-viewer.tsx lines 349-355 and 507-517)

```
function animate() {
  requestAnimationFrame(animate);
  controls.update();
  renderer.render(scene, camera);
}
animate();
```
The cleanup closure never calls `cancelAnimationFrame` and `animate`
has no stop flag, so the callback keeps rescheduling itself. -/

/-- The registrations and resources of one viewer session. -/
structure RafSession where
  resizeRegistered : Bool
  pointerMoveRegistered : Bool
  pointerLeaveRegistered : Bool
  highlightActive : Bool
  templateDisposed : Bool
  surfaceAttached : Bool
  rendererDisposed : Bool
  rafScheduled : Bool
deriving DecidableEq, Repr

/-- The effect body: handlers registered, surface attached, animation
loop started. -/
def createSession : RafSession :=
  { resizeRegistered := true
    pointerMoveRegistered := true
    pointerLeaveRegistered := true
    highlightActive := false
    templateDisposed := false
    surfaceAttached := true
    rendererDisposed := false
    rafScheduled := true }

/-- The cleanup closure (lines 507-517): unregister the resize and
pointer handlers, clear the highlight, dispose the template, detach the
surface, dispose the renderer — and leave the animation callback
scheduled (no `cancelAnimationFrame`). -/
def cleanupSession (s : RafSession) : RafSession :=
  { s with
    resizeRegistered := false
    pointerMoveRegistered := false
    pointerLeaveRegistered := false
    highlightActive := false
    templateDisposed := true
    surfaceAttached := false
    rendererDisposed := true }

/-- One display frame: a scheduled `animate` immediately calls
`requestAnimationFrame(animate)` again, so its scheduling persists. -/
def frameStep (s : RafSession) : RafSession :=
  { s with rafScheduled := s.rafScheduled }

/-- The remount history, live session first: a remount cleans up the
current session and puts a freshly created one in front of it. -/
def remount (history : List RafSession) : List RafSession :=
  match history with
  | [] => [createSession]
  | current :: old => createSession :: cleanupSession current :: old

/-- The history after the first mount and `n` subsequent remounts. -/
def remountTimes : Nat → List RafSession
  | 0 => remount []
  | n + 1 => remount (remountTimes n)

lemma remountTimes_shape :
    ∀ n : Nat, ∃ old, remountTimes n = createSession :: old
      ∧ ∀ s ∈ old, s.rafScheduled = true ∧ s.rendererDisposed = true := by
  intro n
  induction n with
  | zero => exact ⟨[], rfl, by intro s hs; simp at hs⟩
  | succ n ih =>
    obtain ⟨old, heq, hold⟩ := ih
    refine ⟨cleanupSession createSession :: old, ?_, ?_⟩
    · show remount (remountTimes n) = _
      rw [heq]
      rfl
    · intro s hs
      rcases List.mem_cons.mp hs with hs1 | hs2
      · rw [hs1]
        exact ⟨rfl, rfl⟩
      · exact hold s hs2

/-- C9: teardown unregisters the resize and pointer handlers, clears
the highlight and disposes the renderer but never stops the animation
loop; after any number of remounts every superseded session still has
its callback scheduled against its disposed renderer, and stepping any
number of frames never unschedules a scheduled callback. -/
theorem animation_loop_never_cancelled :
    ((cleanupSession createSession).rafScheduled = true
      ∧ (cleanupSession createSession).rendererDisposed = true
      ∧ (cleanupSession createSession).resizeRegistered = false
      ∧ (cleanupSession createSession).pointerMoveRegistered = false
      ∧ (cleanupSession createSession).pointerLeaveRegistered = false
      ∧ (cleanupSession createSession).highlightActive = false)
    ∧ (∀ s : RafSession, (cleanupSession s).rafScheduled = s.rafScheduled)
    ∧ (∀ n : Nat, ∀ s ∈ (remountTimes n).tail,
        s.rafScheduled = true ∧ s.rendererDisposed = true)
    ∧ (∀ (n : Nat) (s : RafSession), s.rafScheduled = true →
        (frameStep^[n] s).rafScheduled = true) := by
  refine ⟨⟨rfl, rfl, rfl, rfl, rfl, rfl⟩, fun s => rfl, ?_, ?_⟩
  · intro n s hs
    obtain ⟨old, heq, hold⟩ := remountTimes_shape n
    rw [heq] at hs
    exact hold s hs
  · intro n s hs
    induction n with
    | zero => exact hs
    | succ n ih =>
      rw [Function.iterate_succ_apply']
      exact ih

/-- Witness for `animation_loop_never_cancelled`: after two remounts
the session torn down second still has its callback scheduled, and a
scheduled session stays scheduled across three frames. -/
theorem animation_loop_never_cancelled_witness :
    (cleanupSession createSession ∈ (remountTimes 2).tail
      ∧ (cleanupSession createSession).rafScheduled = true
      ∧ (cleanupSession createSession).rendererDisposed = true)
    ∧ ((cleanupSession createSession).rafScheduled = true
      ∧ (frameStep^[3] (cleanupSession createSession)).rafScheduled = true) := by
  constructor
  · refine ⟨by decide, animation_loop_never_cancelled.2.2.1 2 (cleanupSession createSession)
      (by decide)⟩
  · exact ⟨rfl, animation_loop_never_cancelled.2.2.2 3 (cleanupSession createSession) rfl⟩

end StepRender
